import Mathlib

/-!
Verification of the TDDCinema subscription-pricing module
(`tddcinema/abonnement.py`) against its specification.

The Python `Decimal` values are embedded as coefficient/scale pairs
(`Dec`): the value of `⟨c, s⟩` is `c / 10^s`.  This keeps the exponent
information that `Decimal` carries (so `Decimal("8")` and
`Decimal("8.00")` are distinguishable, as they are in Python, although
they compare numerically equal).  Fallible Python code (raising
`ValueError`) is embedded as `Except String`.
-/

/-- Embedding of a Python `Decimal` with non-positive exponent: the
value is `coeff / 10 ^ scale`.  `Decimal("22.90")` is `⟨2290, 2⟩`,
`Decimal("8")` is `⟨8, 0⟩`. -/
structure Dec where
  coeff : Int
  scale : Nat
deriving DecidableEq

/-- Numeric value of a `Dec`, as a rational. -/
def Dec.val (d : Dec) : ℚ := (d.coeff : ℚ) / (10 : ℚ) ^ d.scale

/-- Half-up division: `n / p` rounded to the nearest integer, ties
going away from zero (Python `ROUND_HALF_UP`).  `p` is positive. -/
def halfUpDiv (n : Int) (p : Nat) : Int :=
  if 0 ≤ n then (2 * n + p) / (2 * p) else -((2 * (-n) + p) / (2 * p))

/-- Embedding of `x.quantize(Decimal("0.01"), rounding=ROUND_HALF_UP)`:
rescale to exactly 2 fractional digits, rounding half-up when digits
are dropped. -/
def Dec.quantize2 (d : Dec) : Dec :=
  if d.scale ≤ 2 then ⟨d.coeff * 10 ^ (2 - d.scale), 2⟩
  else ⟨halfUpDiv d.coeff (10 ^ (d.scale - 2)), 2⟩

/-- Exact `Decimal` addition: align to the larger scale. -/
def Dec.add (x y : Dec) : Dec :=
  ⟨x.coeff * 10 ^ (max x.scale y.scale - x.scale)
     + y.coeff * 10 ^ (max x.scale y.scale - y.scale),
   max x.scale y.scale⟩

/-- Exact `Decimal × int` multiplication: the scale is unchanged. -/
def Dec.mulInt (x : Dec) (n : Int) : Dec := ⟨x.coeff * n, x.scale⟩

/-- Rounding of a rational to 2 decimal places, half away from zero:
the reference semantics of `ROUND_HALF_UP` quantization. -/
def roundQ2 (q : ℚ) : ℚ :=
  if 0 ≤ q then ((Int.floor (q * 100 + 1 / 2) : ℚ)) / 100
  else -(((Int.floor (-q * 100 + 1 / 2) : ℚ)) / 100)

/-- The nine members of the `Formula` enum. -/
inductive Formula
  | ILLIMITE_26_PLUS
  | ILLIMITE_26_MINUS
  | ILLIMITE_2_PERS
  | FAMILLE
  | ILLIMITE_WEEKEND
  | ILLIMITE_SEMAINE
  | ILLIMITE_3D
  | CINE_PLUS_CANAL
  | CINE_DAY
deriving DecidableEq

/-- A `TariffPlan`: a monthly fee and the 4-tuple of first-payment
bracket amounts. -/
structure TariffPlan where
  monthly_fee : Dec
  first_payment_brackets : Dec × Dec × Dec × Dec
deriving DecidableEq

/-- Error message of `first_payment_for_day` for a day outside [1, 31]. -/
def dayRangeErr : String := "Le jour de debut doit etre compris entre 1 et 31"

/-- Error message of `_resolve_tariff` for an unsupported duration. -/
def durationErr : String := "Duree non prise en charge (1, 6 ou 12 mois)"

/-- Error message of `_resolve_tariff` when the plan is absent from the
selected table. -/
def planErr : String := "Formule incompatible avec la duree choisie"

/-- Error message of the family validation at construction. -/
def familyErr : String := "Composition familiale ou justificatif invalide"

/-- Embedding of `TariffPlan.first_payment_for_day`. -/
def TariffPlan.first_payment_for_day (t : TariffPlan) (start_day : Int) :
    Except String Dec :=
  if ¬(1 ≤ start_day ∧ start_day ≤ 31) then .error dayRangeErr
  else if start_day ≤ 8 then .ok t.first_payment_brackets.1
  else if start_day ≤ 16 then .ok t.first_payment_brackets.2.1
  else if start_day ≤ 22 then .ok t.first_payment_brackets.2.2.1
  else .ok t.first_payment_brackets.2.2.2

/-- The 1-month tariff table (`TABLE_1`), as a partial map. -/
def TABLE_1 : Formula → Option TariffPlan
  | .ILLIMITE_26_PLUS =>
      some ⟨⟨2290, 2⟩, (⟨4580, 2⟩, ⟨3053, 2⟩, ⟨3060, 2⟩, ⟨2290, 2⟩)⟩
  | .ILLIMITE_26_MINUS =>
      some ⟨⟨1790, 2⟩, (⟨3580, 2⟩, ⟨2479, 2⟩, ⟨2387, 2⟩, ⟨1790, 2⟩)⟩
  | .ILLIMITE_2_PERS =>
      some ⟨⟨3680, 2⟩, (⟨7360, 2⟩, ⟨4932, 2⟩, ⟨4926, 2⟩, ⟨3680, 2⟩)⟩
  | .FAMILLE =>
      some ⟨⟨3790, 2⟩, (⟨7580, 2⟩, ⟨5059, 2⟩, ⟨5056, 2⟩, ⟨3790, 2⟩)⟩
  | .ILLIMITE_WEEKEND =>
      some ⟨⟨1690, 2⟩, (⟨3380, 2⟩, ⟨2243, 2⟩, ⟨2253, 2⟩, ⟨1690, 2⟩)⟩
  | .ILLIMITE_SEMAINE =>
      some ⟨⟨1990, 2⟩, (⟨3980, 2⟩, ⟨2746, 2⟩, ⟨2653, 2⟩, ⟨1990, 2⟩)⟩
  | _ => none

/-- The 6/12-month tariff table (`TABLE_2`), as a partial map.
`CINE_DAY` stores `Decimal("8")`, i.e. scale 0. -/
def TABLE_2 : Formula → Option TariffPlan
  | .ILLIMITE_26_PLUS =>
      some ⟨⟨2290, 2⟩, (⟨2959, 2⟩, ⟨2290, 2⟩, ⟨2290, 2⟩, ⟨2290, 2⟩)⟩
  | .ILLIMITE_26_MINUS =>
      some ⟨⟨1790, 2⟩, (⟨2084, 2⟩, ⟨1790, 2⟩, ⟨1790, 2⟩, ⟨1790, 2⟩)⟩
  | .ILLIMITE_2_PERS =>
      some ⟨⟨3680, 2⟩, (⟨4293, 2⟩, ⟨3680, 2⟩, ⟨3680, 2⟩, ⟨3680, 2⟩)⟩
  | .FAMILLE =>
      some ⟨⟨3790, 2⟩, (⟨4424, 2⟩, ⟨3790, 2⟩, ⟨3790, 2⟩, ⟨3790, 2⟩)⟩
  | .ILLIMITE_3D =>
      some ⟨⟨3090, 2⟩, (⟨3090, 2⟩, ⟨3090, 2⟩, ⟨3090, 2⟩, ⟨3090, 2⟩)⟩
  | .CINE_PLUS_CANAL =>
      some ⟨⟨4490, 2⟩, (⟨4490, 2⟩, ⟨4490, 2⟩, ⟨4490, 2⟩, ⟨4490, 2⟩)⟩
  | .CINE_DAY =>
      some ⟨⟨8, 0⟩, (⟨8, 0⟩, ⟨8, 0⟩, ⟨8, 0⟩, ⟨8, 0⟩)⟩
  | _ => none

/-- Embedding of `datetime.date`: year, month and day fields. -/
structure PyDate where
  year : Int
  month : Int
  day : Int
deriving DecidableEq

/-- Gregorian leap-year test, as in `datetime`. -/
def isLeap (y : Int) : Bool :=
  y % 4 = 0 && (y % 100 ≠ 0 || y % 400 = 0)

/-- Number of days in a month of the Gregorian calendar. -/
def daysInMonth (y m : Int) : Int :=
  if m = 2 then (if isLeap y then 29 else 28)
  else if m = 4 ∨ m = 6 ∨ m = 9 ∨ m = 11 then 30
  else 31

/-- The invariant `datetime.date` guarantees for any constructed date. -/
def PyDate.Valid (d : PyDate) : Prop :=
  1 ≤ d.month ∧ d.month ≤ 12 ∧ 1 ≤ d.day ∧ d.day ≤ daysInMonth d.year d.month

instance (d : PyDate) : Decidable d.Valid :=
  inferInstanceAs (Decidable (1 ≤ d.month ∧ d.month ≤ 12 ∧ 1 ≤ d.day ∧
    d.day ≤ daysInMonth d.year d.month))

/-- The `Abonnement` object after successful construction: the
constructor arguments plus the cached `_tariff`. -/
structure Abonnement where
  formula : Formula
  duration_months : Int
  start_date : PyDate
  adults : Int
  children : Int
  livret_presented : Bool
  _tariff : TariffPlan
deriving DecidableEq

/-- Lookup `table[formula]` with `KeyError` turned into the `ValueError` of
`_resolve_tariff`. -/
def lookupOrErr (table : Formula → Option TariffPlan) (formula : Formula) :
    Except String TariffPlan :=
  match table formula with
  | some t => .ok t
  | none => .error planErr

/-- Embedding of `Abonnement._resolve_tariff` (reads only the formula
and the duration). -/
def resolve_tariff (formula : Formula) (duration_months : Int) :
    Except String TariffPlan :=
  if duration_months = 1 then lookupOrErr TABLE_1 formula
  else if duration_months = 6 ∨ duration_months = 12 then
    lookupOrErr TABLE_2 formula
  else .error durationErr

/-- The body of `Abonnement.validate_family`, as a function of the
fields it reads. -/
def validate_family_raw (formula : Formula) (adults children : Int)
    (livret_presented : Bool) : Bool :=
  if formula ≠ Formula.FAMILLE then true
  else decide (adults ≤ 2) && decide (children ≤ 2) && livret_presented

/-- Embedding of the method `Abonnement.validate_family`. -/
def Abonnement.validate_family (a : Abonnement) : Bool :=
  validate_family_raw a.formula a.adults a.children a.livret_presented

/-- Embedding of `Abonnement.__init__`: resolves the tariff, then runs
the family check; returns the constructed object or the first
`ValueError` raised. -/
def Abonnement.make (formula : Formula) (duration_months : Int)
    (start_date : PyDate) (adults children : Int)
    (livret_presented : Bool) : Except String Abonnement :=
  match resolve_tariff formula duration_months with
  | .error e => .error e
  | .ok t =>
    if formula = Formula.FAMILLE ∧
        (Abonnement.validate_family
          ⟨formula, duration_months, start_date, adults, children,
           livret_presented, t⟩) = false then
      .error familyErr
    else
      .ok ⟨formula, duration_months, start_date, adults, children,
           livret_presented, t⟩

/-- Embedding of the property `Abonnement.monthly_fee`. -/
def Abonnement.monthly_fee (a : Abonnement) : Dec := a._tariff.monthly_fee

/-- Embedding of the property `Abonnement.first_payment` (the day check
inside `first_payment_for_day` runs lazily here). -/
def Abonnement.first_payment (a : Abonnement) : Except String Dec :=
  match a._tariff.first_payment_for_day a.start_date.day with
  | .error e => .error e
  | .ok p => .ok p.quantize2

/-- Embedding of the property `Abonnement.total_cost`. -/
def Abonnement.total_cost (a : Abonnement) : Except String Dec :=
  match a.first_payment with
  | .error e => .error e
  | .ok fp =>
    .ok ((fp.add
      (a.monthly_fee.mulInt (max (a.duration_months - 1) 0))).quantize2)

theorem val_scale_shift (c : ℤ) (s s' : ℕ) (h : s ≤ s') :
    ((c * 10 ^ (s' - s) : ℤ) : ℚ) / (10 : ℚ) ^ s' = (c : ℚ) / (10 : ℚ) ^ s := by
  have h1 : (10 : ℚ) ^ (s' - s) * (10 : ℚ) ^ s = (10 : ℚ) ^ s' := by
    rw [← pow_add, Nat.sub_add_cancel h]
  have h2 : (10 : ℚ) ^ s ≠ 0 := pow_ne_zero _ (by norm_num)
  have h3 : (10 : ℚ) ^ s' ≠ 0 := pow_ne_zero _ (by norm_num)
  push_cast
  field_simp
  rw [mul_assoc, h1]

theorem Dec.val_add (x y : Dec) : (x.add y).val = x.val + y.val := by
  unfold Dec.add Dec.val
  simp only
  push_cast [add_div]
  rw [show ((x.coeff : ℚ) * (10 : ℚ) ^ (max x.scale y.scale - x.scale)) = (((x.coeff * 10 ^ (max x.scale y.scale - x.scale) : ℤ)) : ℚ) by push_cast; ring]
  rw [show ((y.coeff : ℚ) * (10 : ℚ) ^ (max x.scale y.scale - y.scale)) = (((y.coeff * 10 ^ (max x.scale y.scale - y.scale) : ℤ)) : ℚ) by push_cast; ring]
  rw [val_scale_shift _ _ _ (le_max_left _ _), val_scale_shift _ _ _ (le_max_right _ _)]

theorem Dec.val_mulInt (x : Dec) (n : ℤ) : (x.mulInt n).val = x.val * n := by
  unfold Dec.mulInt Dec.val
  push_cast
  ring

theorem roundQ2_of_mul_100 (q : ℚ) (m : ℤ) (h : q * 100 = m) :
    roundQ2 q = (m : ℚ) / 100 := by
  unfold roundQ2
  by_cases hq : 0 ≤ q
  · rw [if_pos hq, h, Int.floor_int_add]
    norm_num
  · rw [if_neg hq]
    have h' : -q * 100 = ((-m : ℤ) : ℚ) := by push_cast; linarith
    rw [h', Int.floor_int_add]
    push_cast
    norm_num
    ring
theorem floor_div_add_half (a : ℤ) (p : ℕ) :
    Int.floor ((a : ℚ) / (p : ℚ) + 1 / 2) = (2 * a + p) / (2 * (p : ℤ)) := by
  by_cases hp : p = 0
  · subst hp; norm_num
  have hp' : (0 : ℚ) < p := by positivity
  have key : (a : ℚ) / (p : ℚ) + 1 / 2 = ((2 * a + p : ℤ) : ℚ) / ((2 * p : ℕ) : ℚ) := by
    push_cast
    field_simp
    ring
  rw [key, Rat.floor_intCast_div_natCast]
  push_cast
  ring_nf

theorem Dec.val_quantize2 (d : Dec) : d.quantize2.val = roundQ2 d.val := by
  unfold Dec.quantize2
  by_cases hs : d.scale ≤ 2
  · rw [if_pos hs]
    have h2 : (10 : ℚ) ^ d.scale ≠ 0 := pow_ne_zero _ (by norm_num)
    have h1 : (10 : ℚ) ^ (2 - d.scale) * (10 : ℚ) ^ d.scale = (10 : ℚ) ^ 2 := by
      rw [← pow_add, Nat.sub_add_cancel hs]
    have hkey : d.val * 100 = ((d.coeff * 10 ^ (2 - d.scale) : ℤ) : ℚ) := by
      unfold Dec.val
      push_cast
      field_simp
      rw [mul_assoc, h1]
      norm_num
    rw [roundQ2_of_mul_100 _ _ hkey]
    unfold Dec.val
    norm_num
  · rw [if_neg hs]
    have hs' : 2 ≤ d.scale := le_of_lt (lt_of_not_le hs)
    have hp0 : (0 : ℚ) < ((10 ^ (d.scale - 2) : ℕ) : ℚ) := by positivity
    have hpow : ((10 ^ (d.scale - 2) : ℕ) : ℚ) * 100 = (10 : ℚ) ^ d.scale := by
      push_cast
      rw [show (100 : ℚ) = (10 : ℚ) ^ 2 by norm_num, ← pow_add,
        Nat.sub_add_cancel hs']
    have hq100 : d.val * 100 = (d.coeff : ℚ) / ((10 ^ (d.scale - 2) : ℕ) : ℚ) := by
      unfold Dec.val
      rw [eq_div_iff (ne_of_gt hp0)]
      have h2 : (10 : ℚ) ^ d.scale ≠ 0 := pow_ne_zero _ (by norm_num)
      field_simp
      push_cast at hpow ⊢
      rw [← hpow]
      ring
    rcases le_or_lt 0 d.coeff with hc | hc
    · have hq : 0 ≤ d.val := by
        unfold Dec.val
        positivity
      unfold roundQ2
      rw [if_pos hq, hq100, floor_div_add_half]
      unfold Dec.val halfUpDiv
      rw [if_pos hc]
      push_cast
      norm_num
    · have hq : ¬ 0 ≤ d.val := by
        rw [not_le]
        unfold Dec.val
        apply div_neg_of_neg_of_pos
        · exact_mod_cast hc
        · positivity
      unfold roundQ2
      rw [if_neg hq]
      have hneg : -d.val * 100 = ((-d.coeff : ℤ) : ℚ) / ((10 ^ (d.scale - 2) : ℕ) : ℚ) := by
        push_cast
        rw [neg_mul, hq100]
        push_cast
        ring
      rw [hneg, floor_div_add_half]
      unfold Dec.val halfUpDiv
      rw [if_neg (not_le.mpr hc)]
      push_cast
      norm_num
      ring

/-- Decidable equality on `Except`, component-wise. -/
def Except.decEq {ε α : Type} [DecidableEq ε] [DecidableEq α] :
    (a b : Except ε α) → Decidable (a = b)
  | .error e, .error e' =>
    if h : e = e' then isTrue (by rw [h])
    else isFalse (fun hh => by injection hh; exact h (by assumption))
  | .error _, .ok _ => isFalse (fun hh => by injection hh)
  | .ok _, .error _ => isFalse (fun hh => by injection hh)
  | .ok v, .ok v' =>
    if h : v = v' then isTrue (by rw [h])
    else isFalse (fun hh => by injection hh; exact h (by assumption))

instance {ε α : Type} [DecidableEq ε] [DecidableEq α] :
    DecidableEq (Except ε α) := Except.decEq

/-- Helper: a successful construction determines every field of the
resulting object, and records that the tariff resolution succeeded. -/
theorem make_ok_elim {f : Formula} {d : Int} {sd : PyDate} {ad ch : Int}
    {lv : Bool} {a : Abonnement}
    (h : Abonnement.make f d sd ad ch lv = .ok a) :
    resolve_tariff f d = .ok a._tariff ∧ a.formula = f ∧
    a.duration_months = d ∧ a.start_date = sd ∧ a.adults = ad ∧
    a.children = ch ∧ a.livret_presented = lv := by
  unfold Abonnement.make at h
  cases hr : resolve_tariff f d <;> rw [hr] at h
  · simp at h
  · rename_i t
    dsimp only at h
    by_cases hf : f = Formula.FAMILLE ∧
        Abonnement.validate_family ⟨f, d, sd, ad, ch, lv, t⟩ = false
    · rw [if_pos hf] at h
      simp at h
    · rw [if_neg hf] at h
      injection h with h'
      subst h'
      exact ⟨rfl, rfl, rfl, rfl, rfl, rfl, rfl⟩

/-- Helper: the two possible outcomes of a table lookup. -/
theorem lookupOrErr_cases (table : Formula → Option TariffPlan)
    (f : Formula) :
    (∃ t, table f = some t ∧ lookupOrErr table f = .ok t) ∨
    (table f = none ∧ lookupOrErr table f = .error planErr) := by
  cases h : table f <;> simp [lookupOrErr, h]

/-- Claim C1: for every `TariffPlan` and every integer day,
`first_payment_for_day` returns bracket 0 on [1,8], bracket 1 on
[9,16], bracket 2 on [17,22], bracket 3 on [23,31], and fails with the
day-range validation error for every day outside [1,31]. -/
theorem C1_first_payment_brackets (t : TariffPlan) (day : Int) :
    ((1 ≤ day ∧ day ≤ 8) →
      t.first_payment_for_day day = .ok t.first_payment_brackets.1) ∧
    ((9 ≤ day ∧ day ≤ 16) →
      t.first_payment_for_day day = .ok t.first_payment_brackets.2.1) ∧
    ((17 ≤ day ∧ day ≤ 22) →
      t.first_payment_for_day day = .ok t.first_payment_brackets.2.2.1) ∧
    ((23 ≤ day ∧ day ≤ 31) →
      t.first_payment_for_day day = .ok t.first_payment_brackets.2.2.2) ∧
    (¬(1 ≤ day ∧ day ≤ 31) →
      t.first_payment_for_day day = .error dayRangeErr) := by
  unfold TariffPlan.first_payment_for_day
  refine ⟨fun h => ?_, fun h => ?_, fun h => ?_, fun h => ?_, fun h => ?_⟩ <;>
    split_ifs <;> first | rfl | omega

/-- Witness for C1 on the weekend tariff at day 10 (bracket 1). -/
theorem C1_witness :
    TariffPlan.first_payment_for_day
      ⟨⟨1690, 2⟩, (⟨3380, 2⟩, ⟨2243, 2⟩, ⟨2253, 2⟩, ⟨1690, 2⟩)⟩ 10 =
      .ok ⟨2243, 2⟩ :=
  (C1_first_payment_brackets
    ⟨⟨1690, 2⟩, (⟨3380, 2⟩, ⟨2243, 2⟩, ⟨2253, 2⟩, ⟨1690, 2⟩)⟩ 10).2.1
    (by decide)

/-- Claim C3: duration 1 selects table 1, durations 6 and 12 select
table 2, and any other duration makes tariff resolution, hence
construction, fail with the duration validation error, for every
plan. -/
theorem C3_duration_selects_table (f : Formula) (d : Int) (sd : PyDate)
    (ad ch : Int) (lv : Bool) :
    (d = 1 → resolve_tariff f d = lookupOrErr TABLE_1 f) ∧
    (d = 6 ∨ d = 12 → resolve_tariff f d = lookupOrErr TABLE_2 f) ∧
    (d ≠ 1 ∧ d ≠ 6 ∧ d ≠ 12 →
      resolve_tariff f d = .error durationErr ∧
      Abonnement.make f d sd ad ch lv = .error durationErr) := by
  refine ⟨fun h => ?_, fun h => ?_, fun h => ?_⟩
  · subst h
    rfl
  · rcases h with h | h <;> subst h <;> simp [resolve_tariff]
  · obtain ⟨h1, h6, h12⟩ := h
    have hr : resolve_tariff f d = .error durationErr := by
      unfold resolve_tariff
      rw [if_neg h1, if_neg (by tauto)]
    exact ⟨hr, by simp [Abonnement.make, hr]⟩

/-- Witness for C3 at the weekend plan with durations 1, 6 and 3. -/
theorem C3_witness :
    resolve_tariff Formula.ILLIMITE_WEEKEND 1 =
      lookupOrErr TABLE_1 Formula.ILLIMITE_WEEKEND ∧
    resolve_tariff Formula.ILLIMITE_WEEKEND 6 =
      lookupOrErr TABLE_2 Formula.ILLIMITE_WEEKEND ∧
    resolve_tariff Formula.ILLIMITE_WEEKEND 3 = .error durationErr ∧
    Abonnement.make Formula.ILLIMITE_WEEKEND 3 ⟨2024, 5, 1⟩ 1 0 false =
      .error durationErr :=
  ⟨(C3_duration_selects_table Formula.ILLIMITE_WEEKEND 1 ⟨2024, 5, 1⟩
      1 0 false).1 rfl,
   (C3_duration_selects_table Formula.ILLIMITE_WEEKEND 6 ⟨2024, 5, 1⟩
      1 0 false).2.1 (Or.inl rfl),
   (C3_duration_selects_table Formula.ILLIMITE_WEEKEND 3 ⟨2024, 5, 1⟩
      1 0 false).2.2 (by decide)⟩

/-- Claim C4: the plan is looked up in the table selected by the
duration; resolution fails with the plan-incompatibility error exactly
for the 3D / CINE+ / CINE DAY plans at duration 1 and exactly for the
weekend / semaine plans at durations 6 and 12; every other combination
with a supported duration resolves a tariff, and a resolution error is
propagated as a construction failure. -/
theorem C4_plan_table_compat (f : Formula) (d : Int) (sd : PyDate)
    (ad ch : Int) (lv : Bool) (msg : String) :
    (resolve_tariff f 1 = .error planErr ↔
      (f = .ILLIMITE_3D ∨ f = .CINE_PLUS_CANAL ∨ f = .CINE_DAY)) ∧
    ((d = 6 ∨ d = 12) →
      (resolve_tariff f d = .error planErr ↔
        (f = .ILLIMITE_WEEKEND ∨ f = .ILLIMITE_SEMAINE))) ∧
    ((d = 1 ∨ d = 6 ∨ d = 12) →
      resolve_tariff f d ≠ .error planErr →
      ∃ t, resolve_tariff f d = .ok t) ∧
    (resolve_tariff f d = .error msg →
      Abonnement.make f d sd ad ch lv = .error msg) := by
  refine ⟨?_, fun h => ?_, fun h hne => ?_, fun h => ?_⟩
  · cases f <;> decide
  · rcases h with h | h <;> subst h <;> cases f <;> decide
  · have htab : resolve_tariff f d = lookupOrErr TABLE_1 f ∨
        resolve_tariff f d = lookupOrErr TABLE_2 f := by
      rcases h with h | h | h <;> subst h <;> simp [resolve_tariff]
    rcases htab with htab | htab <;> rw [htab] at hne ⊢
    · rcases lookupOrErr_cases TABLE_1 f with ⟨t, _, ht⟩ | ⟨_, ht⟩
      · exact ⟨t, ht⟩
      · exact absurd ht hne
    · rcases lookupOrErr_cases TABLE_2 f with ⟨t, _, ht⟩ | ⟨_, ht⟩
      · exact ⟨t, ht⟩
      · exact absurd ht hne
  · simp [Abonnement.make, h]

/-- Witness for C4: the weekend plan is absent from table 2, so
construction at duration 6 fails with the plan-incompatibility error. -/
theorem C4_witness :
    resolve_tariff Formula.ILLIMITE_WEEKEND 6 = .error planErr ∧
    Abonnement.make Formula.ILLIMITE_WEEKEND 6 ⟨2024, 5, 1⟩ 1 0 false =
      .error planErr := by
  have h0 := C4_plan_table_compat Formula.ILLIMITE_WEEKEND 6 ⟨2024, 5, 1⟩
    1 0 false planErr
  have h3 : resolve_tariff Formula.ILLIMITE_WEEKEND 6 = .error planErr :=
    (h0.2.1 (Or.inl rfl)).mpr (Or.inl rfl)
  exact ⟨h3, h0.2.2.2 h3⟩

/-- Counterexample to C5 as stated: with at most 2 adults, at most 2
children and the document presented, construction of a family
subscription still fails when the duration is unsupported, so
"construction succeeds iff the family conditions hold" is false. -/
theorem C5_counterexample :
    Abonnement.make Formula.FAMILLE 3 ⟨2024, 1, 5⟩ 1 0 true =
      .error durationErr ∧
    ((1 : Int) ≤ 2 ∧ (0 : Int) ≤ 2 ∧ true = true) := by
  decide

/-- Claim C5 (amended): given a supported duration (1, 6 or 12), a
family-plan construction succeeds iff adults ≤ 2, children ≤ 2 and the
household document was presented, and fails with the family validation
error otherwise; for every other plan the family check trivially
passes and, whenever the tariff resolves, construction succeeds
regardless of adults, children or document flag. -/
theorem C5_family_validation (f : Formula) (d : Int) (sd : PyDate)
    (ad ch : Int) (lv : Bool) :
    (f = Formula.FAMILLE → (d = 1 ∨ d = 6 ∨ d = 12) →
      ((∃ a, Abonnement.make f d sd ad ch lv = .ok a) ↔
        (ad ≤ 2 ∧ ch ≤ 2 ∧ lv = true)) ∧
      (¬(ad ≤ 2 ∧ ch ≤ 2 ∧ lv = true) →
        Abonnement.make f d sd ad ch lv = .error familyErr)) ∧
    (f ≠ Formula.FAMILLE →
      validate_family_raw f ad ch lv = true ∧
      ∀ t, resolve_tariff f d = .ok t →
        Abonnement.make f d sd ad ch lv = .ok ⟨f, d, sd, ad, ch, lv, t⟩) := by
  constructor
  · intro hf hd
    subst hf
    obtain ⟨t, ht⟩ : ∃ t, resolve_tariff Formula.FAMILLE d = .ok t := by
      rcases hd with h | h | h <;> subst h <;> exact ⟨_, rfl⟩
    have hval : ∀ b : Bool,
        Abonnement.validate_family
          ⟨Formula.FAMILLE, d, sd, ad, ch, lv, t⟩ = b ↔
        (decide (ad ≤ 2) && decide (ch ≤ 2) && lv) = b := by
      intro b
      simp [Abonnement.validate_family, validate_family_raw]
    constructor
    · constructor
      · rintro ⟨a, ha⟩
        unfold Abonnement.make at ha
        rw [ht] at ha
        dsimp only at ha
        by_cases hcond : Formula.FAMILLE = Formula.FAMILLE ∧
            Abonnement.validate_family
              ⟨Formula.FAMILLE, d, sd, ad, ch, lv, t⟩ = false
        · rw [if_pos hcond] at ha
          simp at ha
        · have hv : Abonnement.validate_family
              ⟨Formula.FAMILLE, d, sd, ad, ch, lv, t⟩ = true := by
            rcases Bool.eq_false_or_eq_true (Abonnement.validate_family
              ⟨Formula.FAMILLE, d, sd, ad, ch, lv, t⟩) with hv | hv
            · exact hv
            · exact absurd ⟨rfl, hv⟩ hcond
          rw [hval] at hv
          simp at hv
          exact ⟨hv.1.1, hv.1.2, hv.2⟩
      · intro hc
        refine ⟨⟨Formula.FAMILLE, d, sd, ad, ch, lv, t⟩, ?_⟩
        unfold Abonnement.make
        rw [ht]
        dsimp only
        rw [if_neg ?_]
        intro hcond
        have := (hval false).mp hcond.2
        simp [hc.1, hc.2.1, hc.2.2] at this
    · intro hc
      have hfalse : Abonnement.validate_family
          ⟨Formula.FAMILLE, d, sd, ad, ch, lv, t⟩ = false := by
        rw [hval false]
        simp only [Bool.and_eq_false_iff, decide_eq_false_iff_not]
        by_cases h1 : ad ≤ 2
        · by_cases h2 : ch ≤ 2
          · rcases Bool.eq_false_or_eq_true lv with hlv | hlv
            · exact absurd ⟨h1, h2, hlv⟩ hc
            · right
              exact hlv
          · left
            right
            exact h2
        · left
          left
          exact h1
      unfold Abonnement.make
      rw [ht]
      dsimp only
      rw [if_pos ⟨rfl, hfalse⟩]
  · intro hf
    refine ⟨by simp [validate_family_raw, hf], fun t ht => ?_⟩
    unfold Abonnement.make
    rw [ht]
    dsimp only
    rw [if_neg (fun hcond => hf hcond.1)]

/-- Witness for C5 (amended): a valid family household constructs
successfully at duration 1, and an invalid one fails with the family
error. -/
theorem C5_witness :
    (∃ a, Abonnement.make Formula.FAMILLE 1 ⟨2024, 1, 5⟩ 2 2 true =
      .ok a) ∧
    Abonnement.make Formula.FAMILLE 1 ⟨2024, 1, 5⟩ 3 2 false =
      .error familyErr :=
  ⟨((C5_family_validation Formula.FAMILLE 1 ⟨2024, 1, 5⟩ 2 2 true).1 rfl
      (Or.inl rfl)).1.mpr (by decide),
   ((C5_family_validation Formula.FAMILLE 1 ⟨2024, 1, 5⟩ 3 2 false).1 rfl
      (Or.inl rfl)).2 (by decide)⟩

/-- Claim C9: every successfully constructed subscription satisfies the
standalone family-validation query, and repeated calls on the same
instance return the same result (the state it reads is fixed at
construction). -/
theorem C9_validate_family_stable (f : Formula) (d : Int) (sd : PyDate)
    (ad ch : Int) (lv : Bool) (a : Abonnement)
    (h : Abonnement.make f d sd ad ch lv = .ok a) :
    a.validate_family = true ∧ a.validate_family = a.validate_family := by
  refine ⟨?_, rfl⟩
  unfold Abonnement.make at h
  cases hr : resolve_tariff f d <;> rw [hr] at h
  · simp at h
  · rename_i t
    dsimp only at h
    by_cases hf : f = Formula.FAMILLE ∧
        Abonnement.validate_family ⟨f, d, sd, ad, ch, lv, t⟩ = false
    · rw [if_pos hf] at h
      simp at h
    · rw [if_neg hf] at h
      injection h with h'
      subst h'
      by_cases hff : f = Formula.FAMILLE
      · rcases Bool.eq_false_or_eq_true
          (Abonnement.validate_family ⟨f, d, sd, ad, ch, lv, t⟩) with hv | hv
        · exact hv
        · exact absurd ⟨hff, hv⟩ hf
      · simp [Abonnement.validate_family, validate_family_raw, hff]

/-- Witness for C9 on a constructed family subscription. -/
theorem C9_witness :
    (⟨Formula.FAMILLE, 1, ⟨2024, 1, 5⟩, 2, 2, true,
       ⟨⟨3790, 2⟩, (⟨7580, 2⟩, ⟨5059, 2⟩, ⟨5056, 2⟩, ⟨3790, 2⟩)⟩⟩ :
      Abonnement).validate_family = true ∧
    (⟨Formula.FAMILLE, 1, ⟨2024, 1, 5⟩, 2, 2, true,
       ⟨⟨3790, 2⟩, (⟨7580, 2⟩, ⟨5059, 2⟩, ⟨5056, 2⟩, ⟨3790, 2⟩)⟩⟩ :
      Abonnement).validate_family =
    (⟨Formula.FAMILLE, 1, ⟨2024, 1, 5⟩, 2, 2, true,
       ⟨⟨3790, 2⟩, (⟨7580, 2⟩, ⟨5059, 2⟩, ⟨5056, 2⟩, ⟨3790, 2⟩)⟩⟩ :
      Abonnement).validate_family :=
  C9_validate_family_stable Formula.FAMILLE 1 ⟨2024, 1, 5⟩ 2 2 true _
    (by decide)

/-- Helper: no Gregorian month has more than 31 days. -/
theorem daysInMonth_le_31 (y m : Int) : daysInMonth y m ≤ 31 := by
  unfold daysInMonth
  split_ifs <;> omega

/-- Claim C10: for a subscription constructed from a valid calendar
date, `first_payment` never fails: the day of a valid date lies in
[1, 31], so the day-range error branch is unreachable. -/
theorem C10_first_payment_on_valid_date (f : Formula) (d : Int)
    (sd : PyDate) (ad ch : Int) (lv : Bool) (a : Abonnement)
    (hv : sd.Valid) (h : Abonnement.make f d sd ad ch lv = .ok a) :
    ∃ v, a.first_payment = .ok v := by
  obtain ⟨-, -, -, hsd, -, -, -⟩ := make_ok_elim h
  have hday : 1 ≤ a.start_date.day ∧ a.start_date.day ≤ 31 := by
    rw [hsd]
    exact ⟨hv.2.2.1, le_trans hv.2.2.2 (daysInMonth_le_31 _ _)⟩
  obtain ⟨p, hp⟩ : ∃ p,
      a._tariff.first_payment_for_day a.start_date.day = .ok p := by
    unfold TariffPlan.first_payment_for_day
    rw [if_neg (not_not_intro hday)]
    split_ifs <;> exact ⟨_, rfl⟩
  unfold Abonnement.first_payment
  rw [hp]
  exact ⟨_, rfl⟩

/-- Witness for C10 on a leap-day start date. -/
theorem C10_witness :
    ∃ v, (⟨Formula.CINE_DAY, 6, ⟨2024, 2, 29⟩, 1, 0, false,
       ⟨⟨8, 0⟩, (⟨8, 0⟩, ⟨8, 0⟩, ⟨8, 0⟩, ⟨8, 0⟩)⟩⟩ :
      Abonnement).first_payment = .ok v :=
  C10_first_payment_on_valid_date Formula.CINE_DAY 6 ⟨2024, 2, 29⟩
    1 0 false _ (by decide) (by decide)

/-- Claim C2: for every successfully constructed subscription whose
payments evaluate, the total cost is the numeric value of
`first_payment + monthly_fee × max(duration − 1, 0)` rounded to 2
decimals half-up, the rounding being applied once, at the final
step. -/
theorem C2_total_cost_formula (f : Formula) (d : Int) (sd : PyDate)
    (ad ch : Int) (lv : Bool) (a : Abonnement) (fp tc : Dec)
    (hmk : Abonnement.make f d sd ad ch lv = .ok a)
    (hfp : a.first_payment = .ok fp)
    (htc : a.total_cost = .ok tc) :
    tc.val = roundQ2 (fp.val + a.monthly_fee.val *
      ((max (d - 1) 0 : Int) : ℚ)) := by
  have hd : a.duration_months = d := (make_ok_elim hmk).2.2.1
  unfold Abonnement.total_cost at htc
  rw [hfp] at htc
  dsimp only at htc
  injection htc with h'
  rw [← h', Dec.val_quantize2, Dec.val_add, Dec.val_mulInt, hd]

/-- The 26+ tariff of the 6/12-month table. -/
def tarif26Plus6 : TariffPlan :=
  ⟨⟨2290, 2⟩, (⟨2959, 2⟩, ⟨2290, 2⟩, ⟨2290, 2⟩, ⟨2290, 2⟩)⟩

/-- A 26+ subscription over 6 months starting 2024-05-09. -/
def abon26Plus6Day9 : Abonnement :=
  ⟨Formula.ILLIMITE_26_PLUS, 6, ⟨2024, 5, 9⟩, 1, 0, false, tarif26Plus6⟩

/-- Witness for C2 on the 26+/6-month subscription starting on day 9:
137.40 = roundQ2(22.90 + 22.90 × 5). -/
theorem C2_witness :
    (⟨13740, 2⟩ : Dec).val = roundQ2 ((⟨2290, 2⟩ : Dec).val +
      abon26Plus6Day9.monthly_fee.val *
      ((max ((6 : Int) - 1) 0 : Int) : ℚ)) :=
  C2_total_cost_formula Formula.ILLIMITE_26_PLUS 6 ⟨2024, 5, 9⟩ 1 0 false
    abon26Plus6Day9 ⟨2290, 2⟩ ⟨13740, 2⟩ (by decide) (by decide) (by decide)

/-- Helper: quantization always produces scale 2. -/
theorem Dec.quantize2_scale (d : Dec) : d.quantize2.scale = 2 := by
  unfold Dec.quantize2
  split_ifs <;> rfl

/-- Helper: a resolved tariff is an entry of one of the two tables. -/
theorem resolve_ok_table {f : Formula} {d : Int} {t : TariffPlan}
    (h : resolve_tariff f d = .ok t) :
    TABLE_1 f = some t ∨ TABLE_2 f = some t := by
  unfold resolve_tariff at h
  split_ifs at h
  · left
    unfold lookupOrErr at h
    cases htf : TABLE_1 f <;> rw [htf] at h <;> dsimp only at h
    · simp at h
    · injection h with h'
      rw [h']
  · right
    unfold lookupOrErr at h
    cases htf : TABLE_2 f <;> rw [htf] at h <;> dsimp only at h
    · simp at h
    · injection h with h'
      rw [h']

/-- Helper: every monthly fee stored in `TABLE_1` has scale 2. -/
theorem table1_fee_scale (g : Formula) (u : TariffPlan)
    (h : TABLE_1 g = some u) : u.monthly_fee.scale = 2 := by
  cases g <;> simp [TABLE_1] at h <;> subst h <;> rfl

/-- Helper: every monthly fee stored in `TABLE_2` has scale 2, except
the CINE DAY fee, stored as `Decimal("8")` (scale 0). -/
theorem table2_fee_scale (g : Formula) (u : TariffPlan)
    (h : TABLE_2 g = some u) :
    u.monthly_fee.scale = 2 ∨
      (g = Formula.CINE_DAY ∧ u.monthly_fee = ⟨8, 0⟩) := by
  cases g <;> simp [TABLE_2] at h <;> subst h <;>
    first | exact Or.inl rfl | exact Or.inr ⟨rfl, rfl⟩

/-- Counterexample to C6 as stated: the CINE DAY subscription is
successfully constructed, yet its public `monthly_fee` is not
quantized to 2 fractional digits (it keeps the stored scale 0). -/
theorem C6_counterexample :
    (Abonnement.make Formula.CINE_DAY 6 ⟨2024, 5, 20⟩ 1 0 false).toOption.map
      (fun a => a.monthly_fee.scale) = some 0 ∧
    (Abonnement.make Formula.CINE_DAY 6 ⟨2024, 5, 20⟩ 1 0 false).toOption.map
      (fun a => a.monthly_fee.scale) ≠ some 2 := by
  decide

/-- Claim C6 (amended): for every successfully constructed
subscription, `first_payment` and `total_cost` are quantized to
exactly 2 fractional digits with round-half-up semantics;
`monthly_fee` keeps the scale stored in the table, which is 2 for
every plan except CINE DAY, whose fee is stored as `8` with scale 0
(numerically equal to 8.00). -/
theorem C6_public_results_quantized (f : Formula) (d : Int) (sd : PyDate)
    (ad ch : Int) (lv : Bool) (a : Abonnement)
    (h : Abonnement.make f d sd ad ch lv = .ok a) :
    (∀ fp, a.first_payment = .ok fp → fp.scale = 2 ∧
      ∃ p, a._tariff.first_payment_for_day a.start_date.day = .ok p ∧
        fp.val = roundQ2 p.val) ∧
    (∀ tc, a.total_cost = .ok tc → tc.scale = 2 ∧
      ∃ fp, a.first_payment = .ok fp ∧
        tc.val = roundQ2 (fp.val + a.monthly_fee.val *
          ((max (a.duration_months - 1) 0 : Int) : ℚ))) ∧
    (a.monthly_fee.scale = 2 ∨
      (a.formula = Formula.CINE_DAY ∧ a.monthly_fee = ⟨8, 0⟩)) := by
  refine ⟨fun fp hfp => ?_, fun tc htc => ?_, ?_⟩
  · unfold Abonnement.first_payment at hfp
    cases hp : a._tariff.first_payment_for_day a.start_date.day <;>
      rw [hp] at hfp <;> dsimp only at hfp
    · simp at hfp
    · injection hfp with h'
      subst h'
      exact ⟨Dec.quantize2_scale _, _, rfl, Dec.val_quantize2 _⟩
  · unfold Abonnement.total_cost at htc
    cases hfp : a.first_payment <;> rw [hfp] at htc <;> dsimp only at htc
    · simp at htc
    · rename_i fp
      injection htc with h'
      subst h'
      refine ⟨Dec.quantize2_scale _, fp, rfl, ?_⟩
      rw [Dec.val_quantize2, Dec.val_add, Dec.val_mulInt]
  · have hf : a.formula = f := (make_ok_elim h).2.1
    rcases resolve_ok_table (make_ok_elim h).1 with ht | ht
    · exact Or.inl (table1_fee_scale f a._tariff ht)
    · rw [hf]
      exact table2_fee_scale f a._tariff ht

/-- Witness for C6 on the 26+/6-month subscription: its total cost
137.40 has scale 2 and is the half-up rounding of the payment sum, and
its monthly fee has scale 2. -/
theorem C6_witness :
    ((⟨13740, 2⟩ : Dec).scale = 2 ∧
      ∃ fp, abon26Plus6Day9.first_payment = .ok fp ∧
        (⟨13740, 2⟩ : Dec).val = roundQ2 (fp.val +
          abon26Plus6Day9.monthly_fee.val *
          ((max (abon26Plus6Day9.duration_months - 1) 0 : Int) : ℚ))) ∧
    (abon26Plus6Day9.monthly_fee.scale = 2 ∨
      (abon26Plus6Day9.formula = Formula.CINE_DAY ∧
        abon26Plus6Day9.monthly_fee = ⟨8, 0⟩)) :=
  ⟨(C6_public_results_quantized Formula.ILLIMITE_26_PLUS 6 ⟨2024, 5, 9⟩
      1 0 false abon26Plus6Day9 (by decide)).2.1 ⟨13740, 2⟩ (by decide),
   (C6_public_results_quantized Formula.ILLIMITE_26_PLUS 6 ⟨2024, 5, 9⟩
      1 0 false abon26Plus6Day9 (by decide)).2.2⟩

/-- Counterexample to C7 as stated: the CINE DAY fee stored in
`TABLE_2` is not a 2-decimal fixed-point amount (its scale is 0). -/
theorem C7_counterexample :
    (TABLE_2 Formula.CINE_DAY).map (fun t => t.monthly_fee.scale) =
      some 0 ∧
    (TABLE_2 Formula.CINE_DAY).map (fun t => t.monthly_fee.scale) ≠
      some 2 := by
  decide

/-- Claim C7 (amended): `monthly_fee` returns the resolved tariff's
monthly fee verbatim; the stored fee has scale 2 for every plan of
`TABLE_1`, and for every plan of `TABLE_2` except CINE DAY, whose fee
is stored as `8` with scale 0. -/
theorem C7_monthly_fee_verbatim (f : Formula) (d : Int) (sd : PyDate)
    (ad ch : Int) (lv : Bool) (a : Abonnement)
    (h : Abonnement.make f d sd ad ch lv = .ok a) :
    (∃ t, resolve_tariff f d = .ok t ∧ a.monthly_fee = t.monthly_fee) ∧
    (∀ g u, TABLE_1 g = some u → u.monthly_fee.scale = 2) ∧
    (∀ g u, TABLE_2 g = some u →
      (u.monthly_fee.scale = 2 ∨
        (g = Formula.CINE_DAY ∧ u.monthly_fee = ⟨8, 0⟩))) :=
  ⟨⟨a._tariff, (make_ok_elim h).1, rfl⟩,
   fun g u hu => table1_fee_scale g u hu,
   fun g u hu => table2_fee_scale g u hu⟩

/-- Witness for C7 on the 26+/6-month subscription. -/
theorem C7_witness :
    ∃ t, resolve_tariff Formula.ILLIMITE_26_PLUS 6 = .ok t ∧
      abon26Plus6Day9.monthly_fee = t.monthly_fee :=
  (C7_monthly_fee_verbatim Formula.ILLIMITE_26_PLUS 6 ⟨2024, 5, 9⟩ 1 0
    false abon26Plus6Day9 (by decide)).1

/-- Claim C8: a 26+ subscription over 6 months starting on a day-9
date has first payment 22.90 and total cost 137.40. -/
theorem C8_day9_26plus_6months (sd : PyDate) (ad ch : Int) (lv : Bool)
    (a : Abonnement) (hday : sd.day = 9)
    (h : Abonnement.make Formula.ILLIMITE_26_PLUS 6 sd ad ch lv = .ok a) :
    a.first_payment = .ok ⟨2290, 2⟩ ∧ a.total_cost = .ok ⟨13740, 2⟩ := by
  obtain ⟨hres, -, hd, hsd, -, -, -⟩ := make_ok_elim h
  have hres' : resolve_tariff Formula.ILLIMITE_26_PLUS 6 =
      .ok tarif26Plus6 := rfl
  rw [hres'] at hres
  injection hres with ht
  have hday' : a.start_date.day = 9 := by rw [hsd, hday]
  have hfp : a.first_payment = .ok ⟨2290, 2⟩ := by
    unfold Abonnement.first_payment
    rw [hday', ← ht]
    rfl
  refine ⟨hfp, ?_⟩
  unfold Abonnement.total_cost
  rw [hfp]
  dsimp only
  unfold Abonnement.monthly_fee
  rw [← ht, hd]
  rfl

/-- Witness for C8 at the concrete date 2024-05-09. -/
theorem C8_witness :
    abon26Plus6Day9.first_payment = .ok ⟨2290, 2⟩ ∧
    abon26Plus6Day9.total_cost = .ok ⟨13740, 2⟩ :=
  C8_day9_26plus_6months ⟨2024, 5, 9⟩ 1 0 false abon26Plus6Day9 rfl
    (by decide)
